import Mathlib

/-!
Shallow embedding of the Design Compliance Analysis Pipeline
(rule engine, impact estimator, history retriever, suggestion
synthesizer, orchestrator) of the AIES repository, together with
theorems settling the specification claims.

Conventions of the embedding:
* Python scalar values (JSON numbers and strings) are the inductive
  type `Value`; numbers are modelled as exact rationals `ℚ`.
* Python dicts that the code iterates or merges are association lists
  `List (String × _)` or lookup functions `String → Option _`.
* A Python function that can raise is `Except PyError _`; an uncaught
  exception aborts the request, which the `Except` bind models.
* External data (rules.json, materials.json, the feedback log file)
  is passed as an explicit parameter, since the code loads it from
  disk at module level.
-/

namespace AIES

/-- A scalar parameter value: a JSON number (exact rational) or string. -/
inductive Value where
  | num : ℚ → Value
  | str : String → Value
deriving DecidableEq, Repr, Inhabited

/-- Python type name of a value, as it appears in a TypeError
(JSON numbers arrive as floats through the pydantic schemas). -/
def Value.typeName : Value → String
  | .num _ => "float"
  | .str _ => "str"

/-- Is the value numeric? -/
def Value.isNum : Value → Bool
  | .num _ => true
  | .str _ => false

/-- A Python exception escaping the pipeline. `typeError op lhs rhs`
models `TypeError: {op} not supported between instances of {lhs} and
{rhs}`; note that it records only the operator and the operand type
names — nothing else. -/
inductive PyError where
  | typeError (op : String) (lhs : String) (rhs : String)
deriving DecidableEq, Repr

/-- Python `==` between scalar values: numbers compare numerically,
strings compare as strings, mixed kinds are unequal (no error). -/
def valEq : Value → Value → Bool
  | .num a, .num b => a == b
  | .str a, .str b => a == b
  | _, _ => false

/-- Python `a < b` where `b` is a number (a rule bound): defined for a
numeric `a`, a `TypeError` for a string `a`. -/
def pyLtNum (a : Value) (b : ℚ) : Except PyError Bool :=
  match a with
  | .num x => .ok (decide (x < b))
  | .str _ => .error (.typeError "<" "str" "float")

/-- Python `a > b` where `b` is a number (a rule bound). -/
def pyGtNum (a : Value) (b : ℚ) : Except PyError Bool :=
  match a with
  | .num x => .ok (decide (x > b))
  | .str _ => .error (.typeError ">" "str" "float")

/-- Decimal-free rendering of a rational for violation messages:
the digits never matter to the claims, only which constraint kind
the `required` text names. -/
def renderQ (q : ℚ) : String :=
  if q.den = 1 then toString q.num
  else toString q.num ++ "/" ++ toString q.den

/-- Rendering of a scalar inside an f-string. -/
def renderVal : Value → String
  | .num q => renderQ q
  | .str s => s

/-- Rendering of a scalar inside a Python list display (strings are
quoted, `\x27` is the quote character). -/
def renderValRepr : Value → String
  | .num q => renderQ q
  | .str s => "\x27" ++ s ++ "\x27"

/-- Rendering of a Python list of scalars, as in `f"One of {values}"`. -/
def renderValList (vs : List Value) : String :=
  "[" ++ String.intercalate ", " (vs.map renderValRepr) ++ "]"

/-- A validation rule, per `rules.json` and the spec data model:
`min_value` / `max_value` are numeric bounds, `allowed_values` an
explicit list; each constraint field is optional. -/
structure Rule where
  id : String
  parameter : String
  allowed_values : Option (List Value) := none
  min_value : Option ℚ := none
  max_value : Option ℚ := none
  message : String := ""
deriving DecidableEq, Repr

/-- A detected rule violation (`services/rule_engine/engine.py`). -/
structure Violation where
  rule_id : String
  message : String
  current : Value
  required : String
deriving DecidableEq, Repr

/-- A parameter set: the flattened snapshot namespace, as a lookup. -/
def ParamSet := String → Option Value

/-- The `allowed_values` check of `evaluate_rules`: membership via
Python `in` (exact equality); never raises. -/
def checkAllowed (r : Rule) (v : Value) : List Violation :=
  match r.allowed_values with
  | none => []
  | some av =>
      if av.any (valEq v) then []
      else [{ rule_id := r.id, message := r.message, current := v,
              required := "One of " ++ renderValList av }]

/-- The `min_value` check of `evaluate_rules`:
`parameters[param] < rule["min_value"]`. -/
def checkMin (r : Rule) (v : Value) : Except PyError (List Violation) :=
  match r.min_value with
  | none => .ok []
  | some m => do
      let b ← pyLtNum v m
      pure (if b then [{ rule_id := r.id, message := r.message, current := v,
                         required := ">= " ++ renderQ m }] else [])

/-- The `max_value` check of `evaluate_rules`:
`parameters[param] > rule["max_value"]`. -/
def checkMax (r : Rule) (v : Value) : Except PyError (List Violation) :=
  match r.max_value with
  | none => .ok []
  | some m => do
      let b ← pyGtNum v m
      pure (if b then [{ rule_id := r.id, message := r.message, current := v,
                         required := "<= " ++ renderQ m }] else [])

/-- One loop iteration of `evaluate_rules`: a rule whose `parameter`
is absent contributes nothing; otherwise the three constraint checks
run in the fixed order allowed_values, min_value, max_value, and an
exception from a comparison aborts the call. -/
def checkRule (r : Rule) (p : ParamSet) : Except PyError (List Violation) :=
  match p r.parameter with
  | none => .ok []
  | some v => do
      let a := checkAllowed r v
      let mi ← checkMin r v
      let ma ← checkMax r v
      pure (a ++ mi ++ ma)

/-- `evaluate_rules` (`services/rule_engine/engine.py`), with the
rule list (the module-level `RULES` loaded from rules.json) passed
explicitly. A Python exception raised mid-loop propagates, so the
partial violation list is discarded, which the `Except` bind models. -/
def evaluate_rules : List Rule → ParamSet → Except PyError (List Violation)
  | [], _ => .ok []
  | r :: rs, p => do
      let vs ← checkRule r p
      let rest ← evaluate_rules rs p
      pure (vs ++ rest)

/-! ## Impact estimator (`services/estimator.py`) -/

/-- Material record from the material registry (materials.json):
`density_g_cm3` and `cost_per_kg` are read with mandatory access,
`co2_kg_per_kg` with `.get(_, 0)`, hence optional here. -/
structure MaterialProps where
  density_g_cm3 : ℚ
  cost_per_kg : ℚ
  co2_kg_per_kg : Option ℚ := none
deriving DecidableEq, Repr

/-- The material registry: materials.json as a lookup by name.
Modelled from the spec: the estimator imports
`services.material_service.library.get_material_properties`, whose
module is not in the sources; its duplicate
`services/intent_service/library.py` loads a JSON object and returns
`db.get(material_name)`, i.e. exactly a partial map by string key. -/
def Registry := String → Option MaterialProps

/-- `get_material_properties` applied to a scalar: a JSON object is
keyed by strings, so a numeric material name finds nothing. -/
def getMaterialProps (registry : Registry) : Value → Option MaterialProps
  | .str s => registry s
  | .num _ => none

/-- Rounding to two decimal places, Python `round(x, 2)` (the
direction of the half-way tie break is immaterial to every claim). -/
def round2 (q : ℚ) : ℚ := (round (q * 100) : ℤ) / 100

/-- A cost / sustainability estimate. -/
structure Impact where
  cost_usd : ℚ
  carbon_kg : ℚ
deriving DecidableEq, Repr

/-- `estimate_impact` (`services/estimator.py`): `None` when the
material is not in the registry, otherwise mass from volume and
density, cost = material cost + 3 × material cost, carbon from the
CO2 factor (default 0), both rounded to two decimals. -/
def estimate_impact (registry : Registry) (material_name : Value)
    (volume_mm3 : ℚ) : Option Impact :=
  match getMaterialProps registry material_name with
  | none => none
  | some props =>
      let vol_cm3 := volume_mm3 / 1000
      let mass_g := vol_cm3 * props.density_g_cm3
      let mass_kg := mass_g / 1000
      let material_cost := mass_kg * props.cost_per_kg
      let manufacturing_cost := material_cost * 3
      let total_cost := round2 (material_cost + manufacturing_cost)
      let carbon_footprint := round2 (mass_kg * props.co2_kg_per_kg.getD 0)
      some { cost_usd := total_cost, carbon_kg := carbon_footprint }

/-! ## History retriever (`services/retriever.py`) -/

/-- One line of the feedback log file: either a line `json.loads`
rejects, or a parsed record with its `decision` / `comments` fields
(each possibly absent, read with `.get`). -/
inductive LogLine where
  | malformed
  | record (decision : Option String) (comments : Option String)
deriving DecidableEq, Repr

/-- Python rendering of a possibly-`None` string in an f-string. -/
def renderPyOpt : Option String → String
  | none => "None"
  | some s => s

/-- The filter/format pass of `retrieve_lessons`: keep records whose
decision is `accepted`, format each as one descriptive line carrying
its comment text; malformed lines are skipped. -/
def acceptedLessons (lines : List LogLine) : List String :=
  lines.filterMap fun l =>
    match l with
    | .malformed => none
    | .record d c =>
        if d = some "accepted"
        then some ("- Accepted decision: " ++ renderPyOpt c)
        else none

/-- Python `xs[-n:]`: the last `n` elements (all of them when shorter). -/
def lastN (n : ℕ) (xs : List String) : List String :=
  xs.drop (xs.length - n)

/-- `retrieve_lessons` (`services/retriever.py`), with the log file
content passed explicitly: `none` models an absent file, a list its
lines. Returns the joined last-5 window of accepted-decision lines,
or a sentinel string when the file is absent or holds no lesson. -/
def retrieve_lessons (log : Option (List LogLine)) : String :=
  match log with
  | none => "No past lessons found."
  | some lines =>
      let lessons := acceptedLessons lines
      if lessons.isEmpty then "No relevant lessons found."
      else String.intercalate "\n" (lastN 5 lessons)

/-! ## Substring test (Python `pat in s`) -/

/-- Does `pat` match at the head of `s`? -/
def subAt : List Char → List Char → Bool
  | [], _ => true
  | _ :: _, [] => false
  | a :: as, b :: bs => (a == b) && subAt as bs

/-- Does `pat` occur anywhere in `s`? -/
def hasSub (pat : List Char) : List Char → Bool
  | [] => pat.isEmpty
  | b :: bs => subAt pat (b :: bs) || hasSub pat bs

/-- Python `pat in s` on strings. -/
def strHasSub (pat s : String) : Bool := hasSub pat.data s.data

/-! ## Suggestion synthesizer (`mock_llm_inference` in
`services/ai_reasoning/main.py`)

The two prompt arguments of the Python function are dead inputs — the
mock never reads them — so the embedding takes only the violation
list and the history string. -/

/-- Python dict assignment `d[k] = v`: update in place when the key
exists, else append, preserving insertion order. -/
def dictInsert : List (String × Value) → String → Value → List (String × Value)
  | [], k, v => [(k, v)]
  | (k2, v2) :: rest, k, v =>
      if k2 = k then (k, v) :: rest else (k2, v2) :: dictInsert rest k v

/-- Python `d.get(k)` on an association-list dict. -/
def dictGet (d : List (String × Value)) (k : String) : Option Value :=
  (d.find? (fun kv => kv.1 == k)).map (fun kv => kv.2)

/-- The initial explanation of the mock. -/
def baselineExplanation : String := "AI Reasoning: Design meets most criteria."

/-- Explanation written (by assignment) for a `max_weight_drone` violation. -/
def weightExplanation : String :=
  "AI Reasoning: Weight limit exceeded. Reducing wall thickness by 0.5mm will bring mass within 500g limit while maintaining structural integrity."

/-- Explanation written (by assignment) for a `min_fillet_cnc` violation. -/
def filletExplanation : String :=
  "AI Reasoning: Sharp corners detected. Increasing fillet radius to 2mm ensures CNC manufacturability."

/-- Sentence appended (by `+=`) for a `unit_system_check` violation. -/
def unitAppendix : String :=
  " Detected IPS units; switching to MMGS to align with project standards."

/-- Sentence appended when the history mentions an accepted decision. -/
def historyAppendix : String :=
  " (Incorporated insights from past engineering feedback)."

/-- One iteration of the mock loop over detected violations, on the
state (suggestions dict, explanation). The weight and fillet branches
assign the explanation (overwriting it); the unit-system branch
appends to it; unrecognized rule ids leave the state unchanged. -/
def mockStep (st : List (String × Value) × String) (v : Violation) :
    List (String × Value) × String :=
  if v.rule_id = "max_weight_drone" then
    (dictInsert st.1 "wall_thickness_mm" (.num (5/2)), weightExplanation)
  else if v.rule_id = "min_fillet_cnc" then
    (dictInsert st.1 "fillet_radius_mm" (.num 2), filletExplanation)
  else if v.rule_id = "unit_system_check" then
    (dictInsert st.1 "unit_system" (.str "MMGS"), st.2 ++ unitAppendix)
  else st

/-- The mocked LLM response record. -/
structure AIResponse where
  risk_score : ℚ
  violations : List Violation
  suggested_parameter_updates : List (String × Value)
  explanation : String
deriving DecidableEq, Repr

/-- `mock_llm_inference` (`services/ai_reasoning/main.py`): fold the
per-violation policy table over the violation list, acknowledge an
accepted decision found (by substring) in the history, report risk
0.8 when any violation is present else 0.1, and no violations of its
own. -/
def mock_llm_inference (detected_violations : List Violation)
    (history : String) : AIResponse :=
  let st := detected_violations.foldl mockStep ([], baselineExplanation)
  let explanation :=
    if strHasSub "Accepted decision" history
    then st.2 ++ historyAppendix else st.2
  { risk_score := if detected_violations.isEmpty then 1/10 else 8/10,
    violations := [],
    suggested_parameter_updates := st.1,
    explanation := explanation }

/-! ## Orchestrator (`analyze` in `services/ai_reasoning/main.py`) -/

/-- Document settings of a CAD snapshot (`SolidWorksSettings`). -/
structure SolidWorksSettings where
  unit_system : String
  tolerance_standard : String
  image_quality : String
deriving DecidableEq, Repr

/-- A CAD snapshot (`CADSnapshot` in `schemas.py`); `fea_summary` is
optional and unused by `analyze`, so it is omitted. -/
structure CADSnapshot where
  design_parameters : List (String × Value)
  mass_properties : List (String × ℚ)
  document_properties : SolidWorksSettings
  feature_counts : List (String × ℤ) := []
deriving DecidableEq, Repr

/-- Python `d.get(k)` on a numeric dict (mass properties). -/
def dictGetQ (d : List (String × ℚ)) (k : String) : Option ℚ :=
  (d.find? (fun kv => kv.1 == k)).map (fun kv => kv.2)

/-- Lookup into `document_properties.dict()`, the three fixed keys. -/
def docGet (doc : SolidWorksSettings) (k : String) : Option Value :=
  if k = "unit_system" then some (.str doc.unit_system)
  else if k = "tolerance_standard" then some (.str doc.tolerance_standard)
  else if k = "image_quality" then some (.str doc.image_quality)
  else none

/-- The flattened parameter namespace
`{**design_parameters, **mass_properties, **document_properties.dict()}`:
a later mapping overrides an earlier one, so document properties win
over mass properties, which win over design parameters. -/
def flatParams (s : CADSnapshot) : ParamSet := fun k =>
  match docGet s.document_properties k with
  | some v => some v
  | none =>
      match dictGetQ s.mass_properties k with
      | some q => some (.num q)
      | none => dictGet s.design_parameters k

/-- The orchestrator response (`AnalysisResult` in the spec). -/
structure AnalysisResult where
  compliance : Bool
  risk_score : ℚ
  estimated_cost : Option ℚ
  carbon_footprint_kg : Option ℚ
  violations : List Violation
  suggested_parameter_updates : List (String × Value)
  explanation : String
deriving DecidableEq, Repr, Inhabited

/-- `analyze` (`services/ai_reasoning/main.py`), with the external
data (rules, material registry, feedback log) passed explicitly and
the request reduced to its CAD snapshot (the design intent only feeds
the prompt, which the mocked LLM ignores). Steps in source order:
flatten, rule check, history, impact, mocked reasoning, merge. -/
def analyze (rules : List Rule) (registry : Registry)
    (log : Option (List LogLine)) (snapshot : CADSnapshot) :
    Except PyError AnalysisResult := do
  let flat := flatParams snapshot
  let violations ← evaluate_rules rules flat
  let history := retrieve_lessons log
  let material := (dictGet snapshot.design_parameters "material").getD (.str "Unknown")
  let volume := (dictGetQ snapshot.mass_properties "volume_mm3").getD 0
  let impact := estimate_impact registry material volume
  let ai := mock_llm_inference violations history
  let final_violations := violations ++ ai.violations
  pure {
    compliance := final_violations.isEmpty,
    risk_score := if violations.isEmpty then ai.risk_score else 9/10,
    estimated_cost := impact.map (fun i => i.cost_usd),
    carbon_footprint_kg := impact.map (fun i => i.carbon_kg),
    violations := final_violations,
    suggested_parameter_updates := ai.suggested_parameter_updates,
    explanation := "Rule Engine found " ++ toString violations.length
      ++ " violations. " ++ ai.explanation }

/-! ## Derived descriptions used by the theorems -/

/-- The violations of the `min_value` constraint alone (empty when the
constraint is absent or satisfied; a string value cannot reach this
list, the comparison raises instead). -/
def minViols (r : Rule) (v : Value) : List Violation :=
  match r.min_value, v with
  | some m, .num x =>
      if x < m then [{ rule_id := r.id, message := r.message, current := v,
                       required := ">= " ++ renderQ m }] else []
  | _, _ => []

/-- The violations of the `max_value` constraint alone. -/
def maxViols (r : Rule) (v : Value) : List Violation :=
  match r.max_value, v with
  | some m, .num x =>
      if x > m then [{ rule_id := r.id, message := r.message, current := v,
                       required := "<= " ++ renderQ m }] else []
  | _, _ => []

/-- All violations one applicable rule emits for a parameter value, in
the fixed constraint order allowed_values, min_value, max_value. -/
def violsOfRule (r : Rule) (v : Value) : List Violation :=
  checkAllowed r v ++ minViols r v ++ maxViols r v

/-- Is the `allowed_values` constraint present and violated? -/
def allowedViolated (r : Rule) (v : Value) : Bool :=
  match r.allowed_values with
  | none => false
  | some av => !(av.any (valEq v))

/-- Is the `min_value` constraint present and violated? -/
def minViolated (r : Rule) (v : Value) : Bool :=
  match r.min_value, v with
  | some m, .num x => decide (x < m)
  | _, _ => false

/-- Is the `max_value` constraint present and violated? -/
def maxViolated (r : Rule) (v : Value) : Bool :=
  match r.max_value, v with
  | some m, .num x => decide (x > m)
  | _, _ => false

/-! ## Concrete instances (the demo scenario of the spec) -/

/-- The drone weight rule of the end-to-end scenario. -/
def demoRuleMax : Rule :=
  { id := "max_weight_drone", parameter := "weight_g",
    max_value := some 500, message := "Drone arm must weigh under 500g" }

/-- The CNC fillet rule of the end-to-end scenario. -/
def demoRuleMin : Rule :=
  { id := "min_fillet_cnc", parameter := "fillet_radius_mm",
    min_value := some 2, message := "Fillet radius must be at least 2mm" }

/-- The demo rule store. -/
def demoRules : List Rule := [demoRuleMax, demoRuleMin]

/-- Fixed document settings for the demo snapshot. -/
def demoSettings : SolidWorksSettings :=
  { unit_system := "MMGS", tolerance_standard := "ISO", image_quality := "High" }

/-- The demo snapshot: overweight part with a sharp fillet. -/
def demoSnapshot : CADSnapshot :=
  { design_parameters := [("material", .str "Aluminium 6061"), ("fillet_radius_mm", .num 1)],
    mass_properties := [("weight_g", 520), ("volume_mm3", 192000)],
    document_properties := demoSettings }

/-- Demo snapshot without a `volume_mm3` mass property. -/
def demoSnapshotNoVol : CADSnapshot :=
  { design_parameters := [("material", .str "Aluminium 6061"), ("fillet_radius_mm", .num 1)],
    mass_properties := [("weight_g", 520)],
    document_properties := demoSettings }

/-- Demo material properties for Aluminium 6061. -/
def demoProps : MaterialProps :=
  { density_g_cm3 := 27/10, cost_per_kg := 5/2, co2_kg_per_kg := some (81/10) }

/-- A one-material registry. -/
def demoRegistry : Registry :=
  fun s => if s = "Aluminium 6061" then some demoProps else none

/-- The deterministic violations of the demo scenario. -/
def demoViolations : List Violation :=
  match evaluate_rules demoRules (flatParams demoSnapshot) with
  | .ok vs => vs
  | .error _ => []

/-- The demo analysis result. -/
def demoResult : AnalysisResult :=
  match analyze demoRules demoRegistry none demoSnapshot with
  | .ok r => r
  | .error _ => default

/-- The demo analysis result for the snapshot without a volume. -/
def demoResultNoVol : AnalysisResult :=
  match analyze demoRules demoRegistry none demoSnapshotNoVol with
  | .ok r => r
  | .error _ => default

/-- A malformed configuration: a numeric `min_value` constraint on the
string-valued parameter `material`. -/
def badRuleA : Rule :=
  { id := "min_fillet_cnc", parameter := "material",
    min_value := some 2, message := "Fillet radius must be at least 2mm" }

/-- The same malformed constraint under a different rule id. -/
def badRuleB : Rule :=
  { id := "max_weight_drone", parameter := "material",
    min_value := some 2, message := "Drone arm must weigh under 500g" }

/-- A parameter set whose `material` entry is a string. -/
def strParams : ParamSet :=
  fun k => if k = "material" then some (.str "Aluminium 6061") else none

/-- A three-constraint rule violating everything at once at value 7. -/
def triRule : Rule :=
  { id := "demo_tri", parameter := "x",
    allowed_values := some [.num 1, .str "A"],
    min_value := some 10, max_value := some 5,
    message := "x out of range" }

/-- The one-key parameter set used with `triRule`. -/
def triParams : ParamSet :=
  fun k => if k = "x" then some (.num 7) else none

/-- The weight violation of the demo scenario, as a literal. -/
def demoViolWeight : Violation :=
  { rule_id := "max_weight_drone", message := "Drone arm must weigh under 500g",
    current := .num 520, required := "<= 500" }

/-- The fillet violation of the demo scenario, as a literal. -/
def demoViolFillet : Violation :=
  { rule_id := "min_fillet_cnc", message := "Fillet radius must be at least 2mm",
    current := .num 1, required := ">= 2" }

/-- The demo impact estimate. -/
def demoImpact : Impact :=
  (estimate_impact demoRegistry (.str "Aluminium 6061") 192000).getD
    { cost_usd := 0, carbon_kg := 0 }

/-- A parameter set carrying only `weight_g` (no fillet radius). -/
def demoParamsNoFillet : ParamSet :=
  fun k => if k = "weight_g" then some (.num 520) else none

/-- A feedback log with accepted, rejected and malformed lines. -/
def demoLog : List LogLine :=
  [ .record (some "accepted") (some "Use 2.5mm walls for drone arms"),
    .malformed,
    .record (some "rejected") (some "Too heavy"),
    .record (some "accepted") none ]

/-! ## Helper lemmas -/

theorem exceptBindOk {α β : Type} (a : α) (f : α → Except PyError β) :
    (Except.ok a >>= f) = f a := rfl

theorem exceptBindErr {α β : Type} (e : PyError) (f : α → Except PyError β) :
    ((Except.error e : Except PyError α) >>= f) = Except.error e := rfl

theorem exceptPure {α : Type} (a : α) :
    (pure a : Except PyError α) = Except.ok a := rfl

/-! ## Claim theorems -/

/-- Claim C1: whenever the Rule Engine returns a non-empty list of
deterministic violations, the `risk_score` of the `AnalysisResult`
returned by `analyze` equals exactly 0.9 (whatever the synthesizer
reported); when the deterministic list is empty, the synthesizer's own
`risk_score` is used. -/
theorem claim1_risk_score_override (rules : List Rule) (registry : Registry)
    (log : Option (List LogLine)) (snapshot : CADSnapshot)
    (res : AnalysisResult) (vs : List Violation)
    (hvs : evaluate_rules rules (flatParams snapshot) = .ok vs)
    (hres : analyze rules registry log snapshot = .ok res) :
    (vs ≠ [] → res.risk_score = 0.9) ∧
    (vs = [] →
      res.risk_score = (mock_llm_inference vs (retrieve_lessons log)).risk_score) := by
  unfold analyze at hres
  dsimp only at hres
  rw [hvs, exceptBindOk] at hres
  rw [exceptPure] at hres
  injection hres with hres
  constructor
  · intro hne
    rw [← hres]
    have : vs.isEmpty = false := by
      cases vs with
      | nil => exact absurd rfl hne
      | cons a t => rfl
    simp [this]
    norm_num
  · intro hnil
    subst hnil
    rw [← hres]
    simp

/-- Witness for C1: the demo scenario, where the rule engine finds two
violations and the final risk score is 0.9. -/
theorem claim1_witness :
    evaluate_rules demoRules (flatParams demoSnapshot) = .ok demoViolations ∧
    analyze demoRules demoRegistry none demoSnapshot = .ok demoResult ∧
    (demoViolations ≠ [] → demoResult.risk_score = 0.9) ∧
    (demoViolations = [] →
      demoResult.risk_score =
        (mock_llm_inference demoViolations (retrieve_lessons none)).risk_score) :=
  ⟨rfl, rfl,
    (claim1_risk_score_override demoRules demoRegistry none demoSnapshot
      demoResult demoViolations rfl rfl).1,
    (claim1_risk_score_override demoRules demoRegistry none demoSnapshot
      demoResult demoViolations rfl rfl).2⟩

/-- Claim C2: the `compliance` field of the `AnalysisResult` returned
by `analyze` is true iff the merged violation list (deterministic
violations concatenated with synthesizer-reported ones) is empty. -/
theorem claim2_compliance_iff_no_violations (rules : List Rule)
    (registry : Registry) (log : Option (List LogLine))
    (snapshot : CADSnapshot) (res : AnalysisResult)
    (hres : analyze rules registry log snapshot = .ok res) :
    res.compliance = true ↔ res.violations = [] := by
  unfold analyze at hres
  dsimp only at hres
  cases hvs : evaluate_rules rules (flatParams snapshot) with
  | error e => rw [hvs, exceptBindErr] at hres; exact absurd hres (by simp)
  | ok vs =>
      rw [hvs, exceptBindOk, exceptPure] at hres
      injection hres with hres
      rw [← hres]
      simp [List.isEmpty_iff]

/-- Witness for C2: in the demo scenario the merged list is non-empty
and `compliance` is false. -/
theorem claim2_witness :
    analyze demoRules demoRegistry none demoSnapshot = .ok demoResult ∧
    (demoResult.compliance = true ↔ demoResult.violations = []) :=
  ⟨rfl, claim2_compliance_iff_no_violations demoRules demoRegistry none
    demoSnapshot demoResult rfl⟩

/-- Claim C8: a rule whose `parameter` key is absent from the
parameter set contributes no violation and raises no error — dropping
it from the rule list does not change the engine output at all. -/
theorem claim8_absent_parameter_skipped (rules1 rules2 : List Rule)
    (r : Rule) (p : ParamSet) (habs : p r.parameter = none) :
    evaluate_rules (rules1 ++ r :: rules2) p =
      evaluate_rules (rules1 ++ rules2) p := by
  have hr : checkRule r p = .ok [] := by unfold checkRule; rw [habs]
  induction rules1 with
  | nil =>
      simp only [List.nil_append]
      rw [evaluate_rules, hr, exceptBindOk]
      cases h2 : evaluate_rules rules2 p with
      | error e => rw [exceptBindErr]
      | ok l => rw [exceptBindOk, exceptPure, List.nil_append]
  | cons r0 rs ih =>
      simp only [List.cons_append]
      simp only [evaluate_rules]
      rw [ih]

/-- Witness for C8: with the fillet-radius parameter missing, the
fillet rule is skipped and the engine output is unchanged. -/
theorem claim8_witness :
    demoParamsNoFillet demoRuleMin.parameter = none ∧
    evaluate_rules ([demoRuleMax] ++ demoRuleMin :: []) demoParamsNoFillet =
      evaluate_rules ([demoRuleMax] ++ []) demoParamsNoFillet :=
  ⟨rfl, claim8_absent_parameter_skipped [demoRuleMax] [] demoRuleMin
    demoParamsNoFillet rfl⟩

/-- Counterexample for C4: a numeric `min_value` compared against a
string parameter raises a bare type error that records only the
operator and the operand types; two malformed rules with different
ids produce the very same error value, so the error cannot identify
the offending rule id (and no `RuleEvaluationError` exists). -/
theorem claim4_counterexample :
    badRuleA.id ≠ badRuleB.id ∧
    evaluate_rules [badRuleA] strParams =
      .error (.typeError "<" "str" "float") ∧
    evaluate_rules [badRuleB] strParams =
      .error (.typeError "<" "str" "float") :=
  ⟨by decide, rfl, rfl⟩

/-- Claim C4 (amended): a malformed rule definition — a numeric
`min_value` compared against a string-valued parameter — aborts the
single request with a generic type error naming only the operator and
operand types; the error does not identify the offending rule id. -/
theorem claim4_amended_type_error (r : Rule) (p : ParamSet) (m : ℚ)
    (s : String) (hmin : r.min_value = some m)
    (hp : p r.parameter = some (.str s)) :
    evaluate_rules [r] p = .error (.typeError "<" "str" "float") := by
  simp [evaluate_rules, checkRule, hp, checkMin, hmin, pyLtNum,
    exceptBindErr, exceptBindOk, exceptPure]

/-- Witness for C4 (amended): the concrete malformed rule. -/
theorem claim4_witness :
    badRuleA.min_value = some 2 ∧
    strParams badRuleA.parameter = some (.str "Aluminium 6061") ∧
    evaluate_rules [badRuleA] strParams =
      .error (.typeError "<" "str" "float") :=
  ⟨rfl, rfl, claim4_amended_type_error badRuleA strParams 2 "Aluminium 6061" rfl rfl⟩

/-- Unfolding of `estimate_impact` on a registered material. -/
theorem estimate_eq_some (registry : Registry) (m : String)
    (props : MaterialProps) (v : ℚ) (hreg : registry m = some props) :
    estimate_impact registry (.str m) v =
      some { cost_usd := round2 (v / 1000 * props.density_g_cm3 / 1000 * props.cost_per_kg
               + v / 1000 * props.density_g_cm3 / 1000 * props.cost_per_kg * 3),
             carbon_kg := round2 (v / 1000 * props.density_g_cm3 / 1000
               * props.co2_kg_per_kg.getD 0) } := by
  unfold estimate_impact getMaterialProps
  dsimp only
  rw [hreg]

/-- Claim C5: `estimate_impact` returns `none` exactly when the
material is absent from the registry; otherwise, with
mass_kg = (volume / 1000) × density / 1000, it returns
cost = round2(mass_kg × cost_per_kg + 3 × (mass_kg × cost_per_kg))
and carbon = round2(mass_kg × co2factor), the CO2 factor defaulting
to 0 when absent from the record. -/
theorem claim5_estimate_formula (registry : Registry) (m : String) (v : ℚ) :
    (estimate_impact registry (.str m) v = none ↔ registry m = none) ∧
    (∀ props, registry m = some props →
      estimate_impact registry (.str m) v =
        some { cost_usd := round2 (v / 1000 * props.density_g_cm3 / 1000 * props.cost_per_kg
                 + 3 * (v / 1000 * props.density_g_cm3 / 1000 * props.cost_per_kg)),
               carbon_kg := round2 (v / 1000 * props.density_g_cm3 / 1000
                 * props.co2_kg_per_kg.getD 0) }) := by
  constructor
  · cases hreg : registry m with
    | none => simp [estimate_impact, getMaterialProps, hreg]
    | some props => simp [estimate_impact, getMaterialProps, hreg]
  · intro props hreg
    rw [estimate_eq_some registry m props v hreg]
    have harg : v / 1000 * props.density_g_cm3 / 1000 * props.cost_per_kg
        + v / 1000 * props.density_g_cm3 / 1000 * props.cost_per_kg * 3
        = v / 1000 * props.density_g_cm3 / 1000 * props.cost_per_kg
        + 3 * (v / 1000 * props.density_g_cm3 / 1000 * props.cost_per_kg) := by
      ring
    rw [harg]

/-- Witness for C5: the demo material at the demo volume. -/
theorem claim5_witness :
    demoRegistry "Aluminium 6061" = some demoProps ∧
    estimate_impact demoRegistry (.str "Aluminium 6061") 192000 =
      some { cost_usd := round2 (192000 / 1000 * demoProps.density_g_cm3 / 1000 * demoProps.cost_per_kg
               + 3 * (192000 / 1000 * demoProps.density_g_cm3 / 1000 * demoProps.cost_per_kg)),
             carbon_kg := round2 (192000 / 1000 * demoProps.density_g_cm3 / 1000
               * demoProps.co2_kg_per_kg.getD 0) } :=
  ⟨rfl, (claim5_estimate_formula demoRegistry "Aluminium 6061" 192000).2 demoProps rfl⟩

/-- Every violation the `allowed_values` check emits carries the
rule's id and the parameter's value. -/
theorem mem_checkAllowed (r : Rule) (v : Value) :
    ∀ w ∈ checkAllowed r v, w.rule_id = r.id ∧ w.current = v := by
  intro w hw
  unfold checkAllowed at hw
  split at hw
  · simp at hw
  · split at hw
    · simp at hw
    · simp at hw
      subst hw
      exact ⟨rfl, rfl⟩

/-- Every violation the `min_value` check emits carries the rule's id
and the parameter's value. -/
theorem mem_minViols (r : Rule) (v : Value) :
    ∀ w ∈ minViols r v, w.rule_id = r.id ∧ w.current = v := by
  intro w hw
  unfold minViols at hw
  split at hw
  · split at hw
    · simp at hw
      subst hw
      exact ⟨rfl, rfl⟩
    · simp at hw
  · simp at hw

/-- Every violation the `max_value` check emits carries the rule's id
and the parameter's value. -/
theorem mem_maxViols (r : Rule) (v : Value) :
    ∀ w ∈ maxViols r v, w.rule_id = r.id ∧ w.current = v := by
  intro w hw
  unfold maxViols at hw
  split at hw
  · split at hw
    · simp at hw
      subst hw
      exact ⟨rfl, rfl⟩
    · simp at hw
  · simp at hw

/-- The `allowed_values` check emits one violation when the constraint
is present and violated, none otherwise. -/
theorem length_checkAllowed (r : Rule) (v : Value) :
    (checkAllowed r v).length = if allowedViolated r v then 1 else 0 := by
  cases h : r.allowed_values with
  | none => simp [checkAllowed, allowedViolated, h]
  | some av =>
      cases ha : av.any (valEq v) <;>
        simp [checkAllowed, allowedViolated, h, ha]

/-- The `min_value` check emits one violation when the constraint is
present and violated, none otherwise. -/
theorem length_minViols (r : Rule) (v : Value) :
    (minViols r v).length = if minViolated r v then 1 else 0 := by
  cases h : r.min_value with
  | none => cases v <;> simp [minViols, minViolated, h]
  | some m =>
      cases v with
      | str s => simp [minViols, minViolated, h]
      | num x =>
          by_cases hlt : x < m <;> simp [minViols, minViolated, h, hlt]

/-- The `max_value` check emits one violation when the constraint is
present and violated, none otherwise. -/
theorem length_maxViols (r : Rule) (v : Value) :
    (maxViols r v).length = if maxViolated r v then 1 else 0 := by
  cases h : r.max_value with
  | none => cases v <;> simp [maxViols, maxViolated, h]
  | some m =>
      cases v with
      | str s => simp [maxViols, maxViolated, h]
      | num x =>
          by_cases hgt : x > m <;> simp [maxViols, maxViolated, h, hgt]

/-- On a value of matching kind, the `min_value` comparison succeeds
and produces exactly the `minViols` list. -/
theorem checkMin_eq (r : Rule) (v : Value)
    (hnum : r.min_value.isSome = true → v.isNum = true) :
    checkMin r v = .ok (minViols r v) := by
  cases hm : r.min_value with
  | none => cases v <;> simp [checkMin, minViols, hm]
  | some m =>
      have hv : v.isNum = true := hnum (by rw [hm]; rfl)
      cases v with
      | str s => simp [Value.isNum] at hv
      | num x =>
          simp [checkMin, minViols, hm, pyLtNum, exceptBindOk, exceptPure]

/-- On a value of matching kind, the `max_value` comparison succeeds
and produces exactly the `maxViols` list. -/
theorem checkMax_eq (r : Rule) (v : Value)
    (hnum : r.max_value.isSome = true → v.isNum = true) :
    checkMax r v = .ok (maxViols r v) := by
  cases hm : r.max_value with
  | none => cases v <;> simp [checkMax, maxViols, hm]
  | some m =>
      have hv : v.isNum = true := hnum (by rw [hm]; rfl)
      cases v with
      | str s => simp [Value.isNum] at hv
      | num x =>
          simp [checkMax, maxViols, hm, pyGtNum, exceptBindOk, exceptPure]

/-- Claim C3: for a rule whose parameter is present (with a value of
the kind its numeric bounds expect), the engine checks the constraints
in the fixed order allowed_values, min_value, max_value, and emits
exactly one violation per violated constraint — each carrying the
rule's id and the parameter's value as `current`, with the `required`
text rendered per constraint kind as `violsOfRule` shows. -/
theorem claim3_per_constraint_violations (r : Rule) (p : ParamSet) (v : Value)
    (hv : p r.parameter = some v)
    (hmin : r.min_value.isSome = true → v.isNum = true)
    (hmax : r.max_value.isSome = true → v.isNum = true) :
    evaluate_rules [r] p = .ok (violsOfRule r v) ∧
    (∀ w ∈ violsOfRule r v, w.rule_id = r.id ∧ w.current = v) ∧
    (violsOfRule r v).length =
      ((if allowedViolated r v then 1 else 0) +
       (if minViolated r v then 1 else 0) +
       (if maxViolated r v then 1 else 0)) := by
  refine ⟨?_, ?_, ?_⟩
  · have hcr : checkRule r p = .ok (violsOfRule r v) := by
      unfold checkRule
      rw [hv]
      dsimp only
      rw [checkMin_eq r v hmin, exceptBindOk, checkMax_eq r v hmax,
        exceptBindOk, exceptPure]
      rfl
    simp only [evaluate_rules]
    rw [hcr, exceptBindOk, exceptBindOk, exceptPure, List.append_nil]
  · intro w hw
    unfold violsOfRule at hw
    rcases List.mem_append.mp hw with h1 | hmaxm
    · rcases List.mem_append.mp h1 with ha | hm
      · exact mem_checkAllowed r v w ha
      · exact mem_minViols r v w hm
    · exact mem_maxViols r v w hmaxm
  · simp only [violsOfRule, List.length_append]
    rw [length_checkAllowed, length_minViols, length_maxViols]

/-- Witness for C3: a rule with all three constraints violated at
value 7 emits exactly three violations. -/
theorem claim3_witness :
    triParams triRule.parameter = some (.num 7) ∧
    (evaluate_rules [triRule] triParams = .ok (violsOfRule triRule (.num 7)) ∧
     (∀ w ∈ violsOfRule triRule (.num 7),
        w.rule_id = triRule.id ∧ w.current = .num 7) ∧
     (violsOfRule triRule (.num 7)).length =
       ((if allowedViolated triRule (.num 7) then 1 else 0) +
        (if minViolated triRule (.num 7) then 1 else 0) +
        (if maxViolated triRule (.num 7) then 1 else 0))) :=
  ⟨rfl, claim3_per_constraint_violations triRule triParams (.num 7) rfl
    (fun _ => rfl) (fun _ => rfl)⟩

/-- Rounding to two decimals maps zero to zero. -/
theorem round2_zero : round2 0 = 0 := by
  simp [round2]

/-- Rounding to two decimals is monotone. -/
theorem round2_le_round2 {a b : ℚ} (h : a ≤ b) : round2 a ≤ round2 b := by
  unfold round2
  have hr : round (a * 100) ≤ round (b * 100) := by
    rw [round_eq, round_eq]
    exact Int.floor_mono (by linarith)
  have hq : ((round (a * 100) : ℤ) : ℚ) ≤ ((round (b * 100) : ℤ) : ℚ) :=
    Int.cast_le.mpr hr
  linarith

/-- Rounding to two decimals preserves non-negativity. -/
theorem round2_nonneg {a : ℚ} (h : 0 ≤ a) : 0 ≤ round2 a := by
  have hm := round2_le_round2 h
  rwa [round2_zero] at hm

/-- Claim C6: for a material present in the registry (with the
physically non-negative density, cost and CO2 factors), the cost and
carbon returned by the estimator are non-negative for non-negative
volumes, and each is monotone in the volume for a fixed material. -/
theorem claim6_estimate_nonneg_mono (registry : Registry) (m : String)
    (props : MaterialProps) (hreg : registry m = some props)
    (hd : 0 ≤ props.density_g_cm3) (hc : 0 ≤ props.cost_per_kg)
    (hco : 0 ≤ props.co2_kg_per_kg.getD 0) :
    (∀ v imp, 0 ≤ v → estimate_impact registry (.str m) v = some imp →
      0 ≤ imp.cost_usd ∧ 0 ≤ imp.carbon_kg) ∧
    (∀ v1 v2 imp1 imp2, v1 ≤ v2 →
      estimate_impact registry (.str m) v1 = some imp1 →
      estimate_impact registry (.str m) v2 = some imp2 →
      imp1.cost_usd ≤ imp2.cost_usd ∧ imp1.carbon_kg ≤ imp2.carbon_kg) := by
  have hmass : ∀ v : ℚ, 0 ≤ v → 0 ≤ v / 1000 * props.density_g_cm3 / 1000 := by
    intro v hv
    have h1 : 0 ≤ v / 1000 := by linarith
    have h2 : 0 ≤ v / 1000 * props.density_g_cm3 := mul_nonneg h1 hd
    linarith
  constructor
  · intro v imp hv himp
    rw [estimate_eq_some registry m props v hreg] at himp
    injection himp with himp
    subst himp
    have h3 : 0 ≤ v / 1000 * props.density_g_cm3 / 1000 * props.cost_per_kg :=
      mul_nonneg (hmass v hv) hc
    have h4 : 0 ≤ v / 1000 * props.density_g_cm3 / 1000 * props.co2_kg_per_kg.getD 0 :=
      mul_nonneg (hmass v hv) hco
    exact ⟨round2_nonneg (by linarith), round2_nonneg h4⟩
  · intro v1 v2 imp1 imp2 h12 himp1 himp2
    rw [estimate_eq_some registry m props v1 hreg] at himp1
    rw [estimate_eq_some registry m props v2 hreg] at himp2
    injection himp1 with himp1
    injection himp2 with himp2
    subst himp1
    subst himp2
    have hkc : 0 ≤ props.density_g_cm3 * props.cost_per_kg := mul_nonneg hd hc
    have hko : 0 ≤ props.density_g_cm3 * props.co2_kg_per_kg.getD 0 :=
      mul_nonneg hd hco
    have hc1 : v1 * (props.density_g_cm3 * props.cost_per_kg) ≤
        v2 * (props.density_g_cm3 * props.cost_per_kg) :=
      mul_le_mul_of_nonneg_right h12 hkc
    have ho1 : v1 * (props.density_g_cm3 * props.co2_kg_per_kg.getD 0) ≤
        v2 * (props.density_g_cm3 * props.co2_kg_per_kg.getD 0) :=
      mul_le_mul_of_nonneg_right h12 hko
    constructor
    · apply round2_le_round2
      have e1 : ∀ v : ℚ, v / 1000 * props.density_g_cm3 / 1000 * props.cost_per_kg
          + v / 1000 * props.density_g_cm3 / 1000 * props.cost_per_kg * 3
          = v * (props.density_g_cm3 * props.cost_per_kg) / 250000 := by
        intro v; ring
      rw [e1, e1]
      linarith
    · apply round2_le_round2
      have e2 : ∀ v : ℚ, v / 1000 * props.density_g_cm3 / 1000 * props.co2_kg_per_kg.getD 0
          = v * (props.density_g_cm3 * props.co2_kg_per_kg.getD 0) / 1000000 := by
        intro v; ring
      rw [e2, e2]
      linarith

/-- Witness for C6: the demo material at the demo volume. -/
theorem claim6_witness :
    demoRegistry "Aluminium 6061" = some demoProps ∧
    (0 ≤ demoProps.density_g_cm3 ∧ 0 ≤ demoProps.cost_per_kg ∧
     0 ≤ demoProps.co2_kg_per_kg.getD 0) ∧
    (0 : ℚ) ≤ 192000 ∧
    estimate_impact demoRegistry (.str "Aluminium 6061") 192000 = some demoImpact ∧
    (0 ≤ demoImpact.cost_usd ∧ 0 ≤ demoImpact.carbon_kg) :=
  ⟨rfl, ⟨by norm_num [demoProps], by norm_num [demoProps], by norm_num [demoProps]⟩,
    by norm_num, rfl,
    (claim6_estimate_nonneg_mono demoRegistry "Aluminium 6061" demoProps rfl
      (by norm_num [demoProps]) (by norm_num [demoProps])
      (by norm_num [demoProps])).1 192000 demoImpact (by norm_num) rfl⟩

/-- A pattern matches at the head of itself followed by anything. -/
theorem subAt_self_append (p rest : List Char) : subAt p (p ++ rest) = true := by
  induction p with
  | nil => rfl
  | cons a as ih => simp [subAt, ih]

/-- A pattern occurs in any list that embeds it between two others. -/
theorem hasSub_of_mid (p pre post : List Char) :
    hasSub p (pre ++ (p ++ post)) = true := by
  induction pre with
  | nil =>
      simp only [List.nil_append]
      cases p with
      | nil =>
          cases post with
          | nil => rfl
          | cons b bs => simp [hasSub, subAt]
      | cons a as =>
          have hs := subAt_self_append (a :: as) post
          simp only [List.cons_append] at hs ⊢
          simp [hasSub, hs]
  | cons b bs ih =>
      simp only [List.cons_append]
      simp [hasSub, ih]

/-- A string occurs (as Python `in`) in any prefixed extension of it. -/
theorem strHasSub_append (pre c : String) : strHasSub c (pre ++ c) = true := by
  unfold strHasSub
  have hd : (pre ++ c).data = pre.data ++ (c.data ++ []) := by
    rw [List.append_nil]
    exact String.data_append pre c
  rw [hd]
  exact hasSub_of_mid c.data pre.data []

/-- Claim C7: `retrieve_lessons` filters the log to records whose
decision is `accepted`, formats each as one descriptive line carrying
its comment text, and returns the last-5 window joined in
chronological order (oldest of the window first); malformed lines and
non-accepted records are skipped without error, and an absent or
lesson-free log yields an explicit sentinel rather than an empty
value. -/
theorem claim7_retrieve_lessons :
    retrieve_lessons none = "No past lessons found." ∧
    (∀ lines, acceptedLessons lines = [] →
      retrieve_lessons (some lines) = "No relevant lessons found.") ∧
    (∀ lines, acceptedLessons lines ≠ [] →
      retrieve_lessons (some lines) =
        String.intercalate "\n" (lastN 5 (acceptedLessons lines))) ∧
    (∀ pre post,
      retrieve_lessons (some (pre ++ LogLine.malformed :: post)) =
        retrieve_lessons (some (pre ++ post))) ∧
    (∀ pre post d c, d ≠ some "accepted" →
      retrieve_lessons (some (pre ++ LogLine.record d c :: post)) =
        retrieve_lessons (some (pre ++ post))) ∧
    (∀ c : String,
      acceptedLessons [LogLine.record (some "accepted") (some c)] =
        ["- Accepted decision: " ++ c] ∧
      strHasSub c ("- Accepted decision: " ++ c) = true) := by
  refine ⟨rfl, ?_, ?_, ?_, ?_, ?_⟩
  · intro lines h
    simp [retrieve_lessons, h]
  · intro lines h
    simp only [retrieve_lessons]
    rw [if_neg]
    simp [List.isEmpty_iff, h]
  · intro pre post
    have hAL : acceptedLessons (pre ++ LogLine.malformed :: post) =
        acceptedLessons (pre ++ post) := by
      unfold acceptedLessons
      rw [List.filterMap_append, List.filterMap_append, List.filterMap_cons]
    simp only [retrieve_lessons]
    rw [hAL]
  · intro pre post d c hd
    have hAL : acceptedLessons (pre ++ LogLine.record d c :: post) =
        acceptedLessons (pre ++ post) := by
      unfold acceptedLessons
      rw [List.filterMap_append, List.filterMap_append, List.filterMap_cons]
      simp [hd]
    simp only [retrieve_lessons]
    rw [hAL]
  · intro c
    refine ⟨by simp [acceptedLessons, renderPyOpt], strHasSub_append _ c⟩

/-- Witness for C7: the demo log, whose two accepted records survive
the filter while the rejected and malformed lines are skipped. -/
theorem claim7_witness :
    acceptedLessons demoLog ≠ [] ∧
    retrieve_lessons (some demoLog) =
      String.intercalate "\n" (lastN 5 (acceptedLessons demoLog)) ∧
    retrieve_lessons none = "No past lessons found." :=
  ⟨by simp [acceptedLessons, demoLog, renderPyOpt],
    claim7_retrieve_lessons.2.2.1 demoLog
      (by simp [acceptedLessons, demoLog, renderPyOpt]),
    claim7_retrieve_lessons.1⟩

/-- Head case of the association-list lookup. -/
theorem dictGet_cons (k0 : String) (v0 : Value) (l : List (String × Value))
    (k : String) :
    dictGet ((k0, v0) :: l) k = if k0 = k then some v0 else dictGet l k := by
  by_cases h : k0 = k
  · subst h
    simp [dictGet, List.find?_cons]
  · simp [dictGet, List.find?_cons, h]

/-- Looking up the inserted key finds the inserted value. -/
theorem dictGet_insert_self (d : List (String × Value)) (k : String) (v : Value) :
    dictGet (dictInsert d k v) k = some v := by
  induction d with
  | nil =>
      rw [show dictInsert [] k v = [(k, v)] from rfl, dictGet_cons, if_pos rfl]
  | cons kv rest ih =>
      obtain ⟨k0, v0⟩ := kv
      by_cases h0 : k0 = k
      · subst h0
        rw [show dictInsert ((k0, v0) :: rest) k0 v = (k0, v) :: rest from by
            simp [dictInsert]]
        rw [dictGet_cons, if_pos rfl]
      · rw [show dictInsert ((k0, v0) :: rest) k v = (k0, v0) :: dictInsert rest k v
            from by simp [dictInsert, h0]]
        rw [dictGet_cons, if_neg h0]
        exact ih

/-- Inserting under a different key does not change a lookup. -/
theorem dictGet_insert_ne (d : List (String × Value)) (k k2 : String)
    (v : Value) (h : k ≠ k2) :
    dictGet (dictInsert d k2 v) k = dictGet d k := by
  induction d with
  | nil =>
      rw [show dictInsert [] k2 v = [(k2, v)] from rfl, dictGet_cons,
        if_neg (fun hh => h hh.symm)]
  | cons kv rest ih =>
      obtain ⟨k0, v0⟩ := kv
      by_cases h0 : k0 = k2
      · subst h0
        rw [show dictInsert ((k0, v0) :: rest) k0 v = (k0, v) :: rest from by
            simp [dictInsert]]
        rw [dictGet_cons, dictGet_cons, if_neg (fun hh => h hh.symm),
          if_neg (fun hh => h hh.symm)]
      · rw [show dictInsert ((k0, v0) :: rest) k2 v
            = (k0, v0) :: dictInsert rest k2 v from by simp [dictInsert, h0]]
        rw [dictGet_cons, dictGet_cons]
        by_cases h1 : k0 = k
        · rw [if_pos h1, if_pos h1]
        · rw [if_neg h1, if_neg h1]
          exact ih

/-- A mock-loop step never destroys an entry whose value is the one
the policy table itself writes for that key. -/
theorem mockStep_preserves (st : List (String × Value) × String) (v : Violation)
    (k : String) (val : Value) (hkv : dictGet st.1 k = some val)
    (h1 : k = "wall_thickness_mm" → val = .num (5/2))
    (h2 : k = "fillet_radius_mm" → val = .num 2)
    (h3 : k = "unit_system" → val = .str "MMGS") :
    dictGet (mockStep st v).1 k = some val := by
  unfold mockStep
  by_cases hr1 : v.rule_id = "max_weight_drone"
  · rw [if_pos hr1]
    by_cases hk : k = "wall_thickness_mm"
    · subst hk
      rw [h1 rfl]
      exact dictGet_insert_self _ _ _
    · rw [show (dictInsert st.1 "wall_thickness_mm" (.num (5/2)), weightExplanation).1
          = dictInsert st.1 "wall_thickness_mm" (.num (5/2)) from rfl]
      rw [dictGet_insert_ne st.1 k "wall_thickness_mm" _ hk]
      exact hkv
  · rw [if_neg hr1]
    by_cases hr2 : v.rule_id = "min_fillet_cnc"
    · rw [if_pos hr2]
      by_cases hk : k = "fillet_radius_mm"
      · subst hk
        rw [h2 rfl]
        exact dictGet_insert_self _ _ _
      · rw [show (dictInsert st.1 "fillet_radius_mm" (.num 2), filletExplanation).1
            = dictInsert st.1 "fillet_radius_mm" (.num 2) from rfl]
        rw [dictGet_insert_ne st.1 k "fillet_radius_mm" _ hk]
        exact hkv
    · rw [if_neg hr2]
      by_cases hr3 : v.rule_id = "unit_system_check"
      · rw [if_pos hr3]
        by_cases hk : k = "unit_system"
        · subst hk
          rw [h3 rfl]
          exact dictGet_insert_self _ _ _
        · rw [show (dictInsert st.1 "unit_system" (.str "MMGS"), st.2 ++ unitAppendix).1
              = dictInsert st.1 "unit_system" (.str "MMGS") from rfl]
          rw [dictGet_insert_ne st.1 k "unit_system" _ hk]
          exact hkv
      · rw [if_neg hr3]
        exact hkv

/-- Folding the mock policy table guarantees a key-value entry as soon
as the key is already set to that value or some violation in the list
writes it. -/
theorem mock_fold_key (rid k : String) (val : Value)
    (hwrite : ∀ st v, v.rule_id = rid → dictGet (mockStep st v).1 k = some val)
    (hpres : ∀ st v, dictGet st.1 k = some val →
      dictGet (mockStep st v).1 k = some val) :
    ∀ (vs : List Violation) (st : List (String × Value) × String),
      (dictGet st.1 k = some val ∨ ∃ v ∈ vs, v.rule_id = rid) →
      dictGet (vs.foldl mockStep st).1 k = some val := by
  intro vs
  induction vs with
  | nil =>
      intro st h
      rcases h with h | ⟨v, hv, _⟩
      · exact h
      · simp at hv
  | cons v rest ih =>
      intro st h
      rw [List.foldl_cons]
      apply ih
      rcases h with h | ⟨w, hw, hid⟩
      · exact Or.inl (hpres st v h)
      · rcases List.mem_cons.mp hw with heq | hmem
        · exact Or.inl (hwrite st v (heq ▸ hid))
        · exact Or.inr ⟨w, hmem, hid⟩

/-- A `max_weight_drone` violation processed last leaves the weight
explanation, with at most the history acknowledgement appended. -/
theorem mock_last_weight (vs : List Violation) (v : Violation) (h : String)
    (hid : v.rule_id = "max_weight_drone") :
    (mock_llm_inference (vs ++ [v]) h).explanation = weightExplanation ∨
    (mock_llm_inference (vs ++ [v]) h).explanation =
      weightExplanation ++ historyAppendix := by
  unfold mock_llm_inference
  rw [List.foldl_append, List.foldl_cons, List.foldl_nil]
  dsimp only
  have hst : (mockStep (vs.foldl mockStep ([], baselineExplanation)) v).2 =
      weightExplanation := by
    simp [mockStep, hid]
  rw [hst]
  by_cases hh : strHasSub "Accepted decision" h = true
  · right; simp [hh]
  · left; simp [hh]

/-- A `min_fillet_cnc` violation processed last leaves the fillet
explanation, with at most the history acknowledgement appended. -/
theorem mock_last_fillet (vs : List Violation) (v : Violation) (h : String)
    (hid : v.rule_id = "min_fillet_cnc") :
    (mock_llm_inference (vs ++ [v]) h).explanation = filletExplanation ∨
    (mock_llm_inference (vs ++ [v]) h).explanation =
      filletExplanation ++ historyAppendix := by
  unfold mock_llm_inference
  rw [List.foldl_append, List.foldl_cons, List.foldl_nil]
  dsimp only
  have hst : (mockStep (vs.foldl mockStep ([], baselineExplanation)) v).2 =
      filletExplanation := by
    have hne : v.rule_id ≠ "max_weight_drone" := by rw [hid]; decide
    simp [mockStep, hid, hne]
  rw [hst]
  by_cases hh : strHasSub "Accepted decision" h = true
  · right; simp [hh]
  · left; simp [hh]

/-- Claim C9: the mock synthesizer accumulates one suggestion entry
per recognized rule id among the violations, but the explanation is
overwritten (not appended) by the weight and fillet branches: with
both a `max_weight_drone` and a `min_fillet_cnc` violation present,
the final explanation describes only the last one processed. -/
theorem claim9_mock_overwrites_explanation :
    (∀ (vs : List Violation) (h : String),
      (∃ v ∈ vs, v.rule_id = "max_weight_drone") →
      dictGet (mock_llm_inference vs h).suggested_parameter_updates
        "wall_thickness_mm" = some (.num (5/2))) ∧
    (∀ (vs : List Violation) (h : String),
      (∃ v ∈ vs, v.rule_id = "min_fillet_cnc") →
      dictGet (mock_llm_inference vs h).suggested_parameter_updates
        "fillet_radius_mm" = some (.num 2)) ∧
    (∀ (vs : List Violation) (h : String),
      (∃ v ∈ vs, v.rule_id = "unit_system_check") →
      dictGet (mock_llm_inference vs h).suggested_parameter_updates
        "unit_system" = some (.str "MMGS")) ∧
    (∀ (vs : List Violation) (v : Violation) (h : String),
      v.rule_id = "max_weight_drone" →
      (∃ w ∈ vs, w.rule_id = "min_fillet_cnc") →
      strHasSub "Weight limit exceeded"
        (mock_llm_inference (vs ++ [v]) h).explanation = true ∧
      strHasSub "Sharp corners detected"
        (mock_llm_inference (vs ++ [v]) h).explanation = false) ∧
    (∀ (vs : List Violation) (v : Violation) (h : String),
      v.rule_id = "min_fillet_cnc" →
      (∃ w ∈ vs, w.rule_id = "max_weight_drone") →
      strHasSub "Sharp corners detected"
        (mock_llm_inference (vs ++ [v]) h).explanation = true ∧
      strHasSub "Weight limit exceeded"
        (mock_llm_inference (vs ++ [v]) h).explanation = false) := by
  refine ⟨?_, ?_, ?_, ?_, ?_⟩
  · intro vs h hex
    show dictGet (vs.foldl mockStep ([], baselineExplanation)).1
      "wall_thickness_mm" = some (.num (5/2))
    apply mock_fold_key "max_weight_drone" "wall_thickness_mm" (.num (5/2))
    · intro st v hid
      simp [mockStep, hid, dictGet_insert_self]
    · intro st v hkv
      exact mockStep_preserves st v _ _ hkv (fun _ => rfl)
        (fun hk => absurd hk (by decide)) (fun hk => absurd hk (by decide))
    · exact Or.inr hex
  · intro vs h hex
    show dictGet (vs.foldl mockStep ([], baselineExplanation)).1
      "fillet_radius_mm" = some (.num 2)
    apply mock_fold_key "min_fillet_cnc" "fillet_radius_mm" (.num 2)
    · intro st v hid
      have hne : v.rule_id ≠ "max_weight_drone" := by rw [hid]; decide
      simp [mockStep, hid, hne, dictGet_insert_self]
    · intro st v hkv
      exact mockStep_preserves st v _ _ hkv (fun hk => absurd hk (by decide))
        (fun _ => rfl) (fun hk => absurd hk (by decide))
    · exact Or.inr hex
  · intro vs h hex
    show dictGet (vs.foldl mockStep ([], baselineExplanation)).1
      "unit_system" = some (.str "MMGS")
    apply mock_fold_key "unit_system_check" "unit_system" (.str "MMGS")
    · intro st v hid
      have hne1 : v.rule_id ≠ "max_weight_drone" := by rw [hid]; decide
      have hne2 : v.rule_id ≠ "min_fillet_cnc" := by rw [hid]; decide
      simp [mockStep, hid, hne1, hne2, dictGet_insert_self]
    · intro st v hkv
      exact mockStep_preserves st v _ _ hkv (fun hk => absurd hk (by decide))
        (fun hk => absurd hk (by decide)) (fun _ => rfl)
    · exact Or.inr hex
  · intro vs v h hid _
    rcases mock_last_weight vs v h hid with he | he <;> rw [he] <;>
      exact ⟨by decide, by decide⟩
  · intro vs v h hid _
    rcases mock_last_fillet vs v h hid with he | he <;> rw [he] <;>
      exact ⟨by decide, by decide⟩

/-- Witness for C9: with the fillet violation processed after the
weight violation, the suggestions carry both keys but the explanation
mentions only the fillet remediation. -/
theorem claim9_witness :
    demoViolFillet.rule_id = "min_fillet_cnc" ∧
    (∃ w ∈ [demoViolWeight], w.rule_id = "max_weight_drone") ∧
    (∃ w ∈ [demoViolWeight, demoViolFillet], w.rule_id = "max_weight_drone") ∧
    dictGet (mock_llm_inference [demoViolWeight, demoViolFillet]
        "").suggested_parameter_updates "wall_thickness_mm" = some (.num (5/2)) ∧
    (strHasSub "Sharp corners detected"
      (mock_llm_inference ([demoViolWeight] ++ [demoViolFillet]) "").explanation
        = true ∧
     strHasSub "Weight limit exceeded"
      (mock_llm_inference ([demoViolWeight] ++ [demoViolFillet]) "").explanation
        = false) :=
  ⟨rfl, ⟨demoViolWeight, by simp, rfl⟩, ⟨demoViolWeight, by simp, rfl⟩,
    claim9_mock_overwrites_explanation.1 [demoViolWeight, demoViolFillet] ""
      ⟨demoViolWeight, by simp, rfl⟩,
    claim9_mock_overwrites_explanation.2.2.2.2 [demoViolWeight] demoViolFillet ""
      rfl ⟨demoViolWeight, by simp, rfl⟩⟩

/-- Claim C10: when the snapshot's mass properties lack `volume_mm3`,
`analyze` calls the estimator with volume 0, so a registered material
yields `estimated_cost = some 0` and `carbon_footprint_kg = some 0`
(not `none`); a missing `material` key defaults to the name
`"Unknown"`, which yields `none` exactly because that name is absent
from the registry. -/
theorem claim10_missing_volume_defaults (rules : List Rule)
    (registry : Registry) (log : Option (List LogLine))
    (snapshot : CADSnapshot) (res : AnalysisResult)
    (hvol : dictGetQ snapshot.mass_properties "volume_mm3" = none)
    (hres : analyze rules registry log snapshot = .ok res) :
    (∀ m props, dictGet snapshot.design_parameters "material" = some (.str m) →
      registry m = some props →
      res.estimated_cost = some 0 ∧ res.carbon_footprint_kg = some 0) ∧
    (dictGet snapshot.design_parameters "material" = none →
      registry "Unknown" = none →
      res.estimated_cost = none ∧ res.carbon_footprint_kg = none) := by
  unfold analyze at hres
  dsimp only at hres
  cases hvs : evaluate_rules rules (flatParams snapshot) with
  | error e =>
      rw [hvs, exceptBindErr] at hres
      exact absurd hres (by simp)
  | ok vs =>
      rw [hvs, exceptBindOk, exceptPure] at hres
      injection hres with hres
      constructor
      · intro m props hm hreg
        have he := estimate_eq_some registry m props 0 hreg
        have hz : (0 : ℚ) / 1000 * props.density_g_cm3 / 1000 * props.cost_per_kg
            + 0 / 1000 * props.density_g_cm3 / 1000 * props.cost_per_kg * 3 = 0 := by
          ring
        have hz2 : (0 : ℚ) / 1000 * props.density_g_cm3 / 1000
            * props.co2_kg_per_kg.getD 0 = 0 := by
          ring
        rw [hz, hz2, round2_zero] at he
        rw [← hres]
        dsimp only
        rw [hvol, hm]
        simp [Option.getD, he]
      · intro hm hreg
        rw [← hres]
        dsimp only
        rw [hvol, hm]
        simp [Option.getD, estimate_impact, getMaterialProps, hreg]

/-- Witness for C10: the demo snapshot without a volume entry yields a
zero (not absent) impact estimate. -/
theorem claim10_witness :
    dictGetQ demoSnapshotNoVol.mass_properties "volume_mm3" = none ∧
    analyze demoRules demoRegistry none demoSnapshotNoVol = .ok demoResultNoVol ∧
    dictGet demoSnapshotNoVol.design_parameters "material" =
      some (.str "Aluminium 6061") ∧
    (demoResultNoVol.estimated_cost = some 0 ∧
     demoResultNoVol.carbon_footprint_kg = some 0) :=
  ⟨rfl, rfl, rfl,
    (claim10_missing_volume_defaults demoRules demoRegistry none
      demoSnapshotNoVol demoResultNoVol rfl rfl).1 "Aluminium 6061" demoProps
      rfl rfl⟩

end AIES
